import Mathlib

/-!
Verification of the cricket analytics core: the win-probability model
(match_analyzer.py) and the Monte Carlo tournament simulation engine
(tournament_simulator.py).

The embedding models Python floats as rationals, Python round(x, 1) as
round-half-even at one decimal, int() truncation toward zero, and every
fallible operation (schedule lookup by match id, dict key access,
division) as an Except value.  Randomness is passed in explicitly: each
random draw the Python code makes (toss winner, toss-decision coin,
head-to-head total, match-outcome uniform) is a parameter, so theorems
quantify over all draws.  Presentation-only string fields of the Python
result dictionaries (key_factor, player_to_watch, venue_impact text,
head_to_head text, toss_impact) are omitted; no claim reads them.
-/

/-- One row of the team ratings table: Bat_Rating, Bowl_Rating, Overall_Rating. -/
structure TeamRating where
  batting : ℚ
  bowling : ℚ
  overall : ℚ
deriving DecidableEq

/-- One row of the venue statistics table. -/
structure VenueStats where
  bat_first_win_pct : ℚ
  bowl_first_win_pct : ℚ
  avg_score : ℚ
  run_rate : ℚ
deriving DecidableEq

/-- One row of the schedule (Date and Time carry no logic and are omitted). -/
structure Fixture where
  match_id : ℤ
  team1 : String
  team2 : String
  venue : String
deriving DecidableEq

/-- The toss winner argument: the literal strings Team A / Team B. -/
inductive TossWinner where
  | TeamA
  | TeamB
deriving DecidableEq

/-- The toss decision argument: the literal strings Bat / Bowl. -/
inductive TossDecision where
  | Bat
  | Bowl
deriving DecidableEq

/-- The reference data a MatchAnalyzer / TournamentSimulator loads once:
the schedule and the team-ratings and venue-stats lookup tables
(association lists keyed by team / venue name, as the Python dicts are). -/
structure Analyzer where
  schedule : List Fixture
  team_ratings : List (String × TeamRating)
  venue_stats : List (String × VenueStats)

/-- The synthetic head-to-head record built by get_head_to_head_record. -/
structure H2H where
  total_matches : ℤ
  team1_wins : ℤ
  team2_wins : ℤ
  team1_win_pct : ℚ
  team2_win_pct : ℚ
deriving DecidableEq

/-- The win-probability result: teams, venue and the rounded probability pair. -/
structure WinProbResult where
  team1 : String
  team2 : String
  venue : String
  win_prob1 : ℚ
  win_prob2 : ℚ
deriving DecidableEq

/-- The random draws one simulated match consumes: the uniform toss-winner
draw, the uniform coin used by simulate_optimal_toss_decision at a neutral
or unknown venue, the uniform value it compares against 0.2 elsewhere, the
randint(8, 15) head-to-head total, and the uniform outcome draw. -/
structure Draws where
  toss_winner : TossWinner
  toss_coin : TossDecision
  toss_u : ℚ
  h2h_total : ℤ
  outcome : ℚ

/-- The dictionary simulate_single_match returns. -/
structure SimMatchResult where
  match_id : ℤ
  team1 : String
  team2 : String
  venue : String
  winner : String
  loser : String
  win_prob_team1 : ℚ
  win_prob_team2 : ℚ
  toss_winner : TossWinner
  toss_decision : TossDecision
deriving DecidableEq

/-- One team_stats entry of simulate_group_stage. -/
structure TeamStats where
  wins : ℕ
  losses : ℕ
  points : ℕ
deriving DecidableEq

/-- The dictionary determine_playoffs returns. -/
structure PlayoffTeams where
  top_3 : List String
  eliminator : List String
  final_4 : List String
deriving DecidableEq

/-- The dictionary run_simulation returns. -/
structure SimOutcome where
  winner : String
  standings : List (String × TeamStats)
  playoff_teams : PlayoffTeams
  match_results : List SimMatchResult

/-- The aggregate run_multiple_simulations accumulates: the winners list,
the playoff-appearance counters, the per-team points distributions and the
first run's match results. -/
structure Aggregate where
  winners : List String
  playoff_appearances : String → ℕ
  final_standings : String → List ℕ
  sample_match_results : List SimMatchResult

/-- One row of the analyze_results output table. -/
structure AnalysisRow where
  team : String
  win_probability_pct : ℚ
  playoff_probability_pct : ℚ
  titles_won : ℕ
  playoff_appearances : ℕ
deriving DecidableEq

/-- One entry of the find_crucial_matches output list. -/
structure CrucialMatch where
  match_id : ℤ
  teams : String
  venue : String
  winner : String
  importance_score : ℚ
  prob_difference : ℚ
deriving DecidableEq

/-- Round to the nearest integer, ties to the even neighbour: the rounding
Python 3's round() performs. -/
def roundHalfEven (x : ℚ) : ℤ :=
  if x - ⌊x⌋ < 1 / 2 then ⌊x⌋
  else if 1 / 2 < x - ⌊x⌋ then ⌊x⌋ + 1
  else if ⌊x⌋ % 2 = 0 then ⌊x⌋ else ⌊x⌋ + 1

/-- Python round(x, 1): one decimal place. -/
def round1 (x : ℚ) : ℚ := ((roundHalfEven (x * 10) : ℤ) : ℚ) / 10

/-- Python int(): truncation toward zero. -/
def truncQ (x : ℚ) : ℤ := if 0 ≤ x then ⌊x⌋ else ⌈x⌉

/-- The final clamp of calculate_win_probability: max(15, min(85, p)). -/
def clampProb (x : ℚ) : ℚ := max 15 (min 85 x)

/-- The error message get_match_details raises for an unknown match id. -/
def matchNotFoundMsg (match_id : ℤ) : String :=
  "Match ID " ++ toString match_id ++ " not found"

/-- MatchAnalyzer.get_match_details: filter the schedule by Match_ID, raise
ValueError when nothing matches, otherwise take the first matching row. -/
def get_match_details (a : Analyzer) (match_id : ℤ) : Except String Fixture :=
  match (a.schedule.filter (fun f => f.match_id == match_id)).head? with
  | none => Except.error (matchNotFoundMsg match_id)
  | some f => Except.ok f

/-- MatchAnalyzer.get_team_rating: dict .get with the neutral 50/50/50 default. -/
def get_team_rating (a : Analyzer) (team_name : String) : TeamRating :=
  ((a.team_ratings.find? (fun p => p.1 == team_name)).map Prod.snd).getD
    { batting := 50, bowling := 50, overall := 50 }

/-- MatchAnalyzer.get_venue_impact: dict .get with the neutral default
(50/50 win percentages, 150 average score, 8.5 run rate). -/
def get_venue_impact (a : Analyzer) (venue : String) : VenueStats :=
  ((a.venue_stats.find? (fun p => p.1 == venue)).map Prod.snd).getD
    { bat_first_win_pct := 50, bowl_first_win_pct := 50, avg_score := 150, run_rate := 17 / 2 }

/-- MatchAnalyzer.get_head_to_head_record, with the randint(8, 15) draw
passed in as total_matches. -/
def get_head_to_head_record (a : Analyzer) (team1 team2 : String) (total_matches : ℤ) : H2H :=
  let team1_rating := (get_team_rating a team1).overall
  let team2_rating := (get_team_rating a team2).overall
  let team1_wins : ℤ :=
    if team1_rating > team2_rating then
      truncQ ((total_matches : ℚ) * (1 / 2 + (team1_rating - team2_rating) / 100))
    else
      truncQ ((total_matches : ℚ) * (1 / 2 - (team2_rating - team1_rating) / 100))
  let team2_wins := total_matches - team1_wins
  { total_matches := total_matches
    team1_wins := team1_wins
    team2_wins := team2_wins
    team1_win_pct :=
      if 0 < total_matches then ((team1_wins : ℚ) / (total_matches : ℚ)) * 100 else 50
    team2_win_pct :=
      if 0 < total_matches then ((team2_wins : ℚ) / (total_matches : ℚ)) * 100 else 50 }

/-- The venue-scaled batting-vs-bowling edges of calculate_win_probability
(computed by the source but never folded into the final probability). -/
def venue_scaled_edges (a : Analyzer) (team1 team2 : String) (venue_impact : VenueStats) : ℚ × ℚ :=
  let team1_ratings := get_team_rating a team1
  let team2_ratings := get_team_rating a team2
  let team1_bat_vs_team2_bowl := team1_ratings.batting / (team2_ratings.bowling + 20) * 100
  let team2_bat_vs_team1_bowl := team2_ratings.batting / (team1_ratings.bowling + 20) * 100
  if venue_impact.bat_first_win_pct > 50 then
    (team1_bat_vs_team2_bowl * (venue_impact.bat_first_win_pct / 50),
     team2_bat_vs_team1_bowl * (venue_impact.bat_first_win_pct / 50))
  else
    (team1_bat_vs_team2_bowl * (venue_impact.bowl_first_win_pct / 50),
     team2_bat_vs_team1_bowl * (venue_impact.bowl_first_win_pct / 50))

/-- Team1's base probability after the rating-difference step and the 10%
head-to-head blend of calculate_win_probability, before the toss effect. -/
def base_prob_team1_pre_toss (a : Analyzer) (team1 team2 : String) (h2h_total : ℤ) : ℚ :=
  let base := 50 + ((get_team_rating a team1).overall - (get_team_rating a team2).overall) * (3 / 2)
  let h2h := get_head_to_head_record a team1 team2 h2h_total
  base * (1 - 1 / 10) + h2h.team1_win_pct * (1 / 10)

/-- The toss-advantage step of calculate_win_probability: the slot that won
the toss gains 15 when its decision matches the venue-favourable strategy,
else 15 times 0.5. -/
def apply_toss_advantage (venue_impact : VenueStats) (toss_winner : TossWinner)
    (toss_decision : TossDecision) (base1 base2 : ℚ) : ℚ × ℚ :=
  let toss_advantage : ℚ := 15
  match toss_winner with
  | TossWinner.TeamA =>
    match toss_decision with
    | TossDecision.Bat =>
      if venue_impact.bat_first_win_pct > 50 then (base1 + toss_advantage, base2)
      else (base1 + toss_advantage * (1 / 2), base2)
    | TossDecision.Bowl =>
      if venue_impact.bowl_first_win_pct > 50 then (base1 + toss_advantage, base2)
      else (base1 + toss_advantage * (1 / 2), base2)
  | TossWinner.TeamB =>
    match toss_decision with
    | TossDecision.Bat =>
      if venue_impact.bat_first_win_pct > 50 then (base1, base2 + toss_advantage)
      else (base1, base2 + toss_advantage * (1 / 2))
    | TossDecision.Bowl =>
      if venue_impact.bowl_first_win_pct > 50 then (base1, base2 + toss_advantage)
      else (base1, base2 + toss_advantage * (1 / 2))

/-- The renormalisation step: divide by the pair total when it is not 100. -/
def normalize_pair (p : ℚ × ℚ) : ℚ × ℚ :=
  if p.1 + p.2 ≠ 100 then ((p.1 / (p.1 + p.2)) * 100, (p.2 / (p.1 + p.2)) * 100) else p

/-- MatchAnalyzer.calculate_win_probability, with the head-to-head
randint(8, 15) draw passed in as h2h_total. -/
def calculate_win_probability (a : Analyzer) (match_id : ℤ) (toss_winner : TossWinner)
    (toss_decision : TossDecision) (h2h_total : ℤ) : Except String WinProbResult :=
  match get_match_details a match_id with
  | Except.error e => Except.error e
  | Except.ok md =>
    let venue_impact := get_venue_impact a md.venue
    let _edges := venue_scaled_edges a md.team1 md.team2 venue_impact
    let base1 := base_prob_team1_pre_toss a md.team1 md.team2 h2h_total
    let base2 := 100 - base1
    let p := apply_toss_advantage venue_impact toss_winner toss_decision base1 base2
    let q := normalize_pair p
    let w1 := clampProb q.1
    Except.ok
      { team1 := md.team1
        team2 := md.team2
        venue := md.venue
        win_prob1 := round1 w1
        win_prob2 := round1 (100 - w1) }

/-- TournamentSimulator.self.teams: the Team column of the ratings table. -/
def teams (a : Analyzer) : List String := a.team_ratings.map (fun p => p.1)

/-- The venue column of the venue-stats table. -/
def venue_names (a : Analyzer) : List String := a.venue_stats.map (fun p => p.1)

/-- TournamentSimulator.simulate_optimal_toss_decision: at an unknown venue a
uniform coin; at a venue with bat-first win percentage above 52 (below 48)
the favourable decision with probability 0.8; a uniform coin otherwise. -/
def simulate_optimal_toss_decision (a : Analyzer) (venue : String) (coin : TossDecision)
    (u : ℚ) : TossDecision :=
  match a.venue_stats.find? (fun p => p.1 == venue) with
  | none => coin
  | some pv =>
    if pv.2.bat_first_win_pct > 52 then
      (if u > 1 / 5 then TossDecision.Bat else TossDecision.Bowl)
    else if pv.2.bat_first_win_pct < 48 then
      (if u > 1 / 5 then TossDecision.Bowl else TossDecision.Bat)
    else coin

/-- TournamentSimulator.simulate_single_match on one schedule row, with the
run's random draws passed in. -/
def simulate_single_match (a : Analyzer) (match_data : Fixture) (d : Draws) :
    Except String SimMatchResult :=
  let toss_winner := d.toss_winner
  let toss_decision := simulate_optimal_toss_decision a match_data.venue d.toss_coin d.toss_u
  match calculate_win_probability a match_data.match_id toss_winner toss_decision d.h2h_total with
  | Except.error e => Except.error e
  | Except.ok match_result =>
    let team1_prob := match_result.win_prob1 / 100
    let wl :=
      if d.outcome < team1_prob then (match_data.team1, match_data.team2)
      else (match_data.team2, match_data.team1)
    Except.ok
      { match_id := match_data.match_id
        team1 := match_data.team1
        team2 := match_data.team2
        venue := match_data.venue
        winner := wl.1
        loser := wl.2
        win_prob_team1 := match_result.win_prob1
        win_prob_team2 := match_result.win_prob2
        toss_winner := toss_winner
        toss_decision := toss_decision }

/-- The winner update of simulate_group_stage: wins += 1, points += 2. -/
def add_win (stats : String → TeamStats) (w : String) : String → TeamStats :=
  fun t =>
    if t = w then
      { wins := (stats t).wins + 1, losses := (stats t).losses, points := (stats t).points + 2 }
    else stats t

/-- The loser update of simulate_group_stage: losses += 1. -/
def add_loss (stats : String → TeamStats) (l : String) : String → TeamStats :=
  fun t =>
    if t = l then
      { wins := (stats t).wins, losses := (stats t).losses + 1, points := (stats t).points }
    else stats t

/-- Both stat updates one simulated fixture performs. -/
def update_stats (stats : String → TeamStats) (w l : String) : String → TeamStats :=
  add_loss (add_win stats w) l

/-- The fixture loop of simulate_group_stage: each fixture is simulated once,
in schedule order; updating a winner or loser absent from the team_stats
dictionary (whose keys are the rated teams) raises KeyError. -/
def run_fixtures (a : Analyzer) (draws : ℕ → Draws) :
    ℕ → (String → TeamStats) → List Fixture →
    Except String ((String → TeamStats) × List SimMatchResult)
  | _, stats, [] => Except.ok (stats, [])
  | i, stats, f :: rest =>
    match simulate_single_match a f (draws i) with
    | Except.error e => Except.error e
    | Except.ok r =>
      if r.winner ∈ teams a ∧ r.loser ∈ teams a then
        match run_fixtures a draws (i + 1) (update_stats stats r.winner r.loser) rest with
        | Except.error e => Except.error e
        | Except.ok (st, rs) => Except.ok (st, r :: rs)
      else Except.error ("KeyError")

/-- Standings order: points descending (the sort_values call). -/
def pointsDesc (p q : String × TeamStats) : Prop := q.2.points ≤ p.2.points

instance : DecidableRel pointsDesc :=
  fun p q => inferInstanceAs (Decidable (q.2.points ≤ p.2.points))

/-- TournamentSimulator.simulate_group_stage: simulate every scheduled
fixture once, then list one standings row per rated team, sorted by points
descending. -/
def simulate_group_stage (a : Analyzer) (draws : ℕ → Draws) :
    Except String (List (String × TeamStats) × List SimMatchResult) :=
  match run_fixtures a draws 0 (fun _ => { wins := 0, losses := 0, points := 0 }) a.schedule with
  | Except.error e => Except.error e
  | Except.ok (stats, match_results) =>
    Except.ok
      (List.insertionSort pointsDesc ((teams a).map (fun t => (t, stats t))), match_results)

/-- TournamentSimulator.determine_playoffs: top 3 qualify, ranks 4 and 5 are
eliminator candidates when the table has at least 5 rows. -/
def determine_playoffs (standings : List (String × TeamStats)) : PlayoffTeams :=
  let sorted := List.insertionSort pointsDesc standings
  let top_3 := (sorted.take 3).map (fun p => p.1)
  let eliminator := if 5 ≤ sorted.length then ((sorted.drop 3).take 2).map (fun p => p.1) else []
  { top_3 := top_3
    eliminator := eliminator
    final_4 := if eliminator ≠ [] then top_3 ++ eliminator.take 1 else top_3 }

/-- The fixed venue of the simulated final. -/
def finalVenue : String := "Lord\x27s, London"

/-- TournamentSimulator.simulate_playoffs: with fewer than three qualifiers
return the top-ranked team (or the first rated team; an empty team list
raises IndexError), otherwise simulate a final between the top two ranked
teams as a dummy fixture with match id 999. -/
def simulate_playoffs (a : Analyzer) (playoff_teams : PlayoffTeams) (d : Draws) :
    Except String String :=
  match playoff_teams.top_3 with
  | [] =>
    match teams a with
    | [] => Except.error ("IndexError")
    | t :: _ => Except.ok t
  | [t] => Except.ok t
  | [t, _] => Except.ok t
  | t1 :: t2 :: _ :: _ =>
    match simulate_single_match a
        { match_id := 999, team1 := t1, team2 := t2, venue := finalVenue } d with
    | Except.error e => Except.error e
    | Except.ok final_result => Except.ok final_result.winner

/-- TournamentSimulator.run_simulation: one group stage plus the playoff
resolution. -/
def run_simulation (a : Analyzer) (gdraws : ℕ → Draws) (fdraw : Draws) :
    Except String SimOutcome :=
  match simulate_group_stage a gdraws with
  | Except.error e => Except.error e
  | Except.ok (standings, match_results) =>
    let playoff_teams := determine_playoffs standings
    match simulate_playoffs a playoff_teams fdraw with
    | Except.error e => Except.error e
    | Except.ok winner =>
      Except.ok
        { winner := winner
          standings := standings
          playoff_teams := playoff_teams
          match_results := match_results }

/-- The empty accumulators run_multiple_simulations starts from. -/
def empty_aggregate : Aggregate :=
  { winners := []
    playoff_appearances := fun _ => 0
    final_standings := fun _ => []
    sample_match_results := [] }

/-- Increment a defaultdict counter for every listed team. -/
def bump_many (f : String → ℕ) (ts : List String) : String → ℕ :=
  ts.foldl (fun g t => fun s => if s = t then g s + 1 else g s) f

/-- Append each standings row's points to its team's distribution list. -/
def record_standings (fs : String → List ℕ) (standings : List (String × TeamStats)) :
    String → List ℕ :=
  standings.foldl (fun g p => fun s => if s = p.1 then g s ++ [p.2.points] else g s) fs

/-- Fold one run's outcome into the accumulators: append the champion,
count playoff appearances for the top-3 and eliminator teams, record the
points, and keep the match results of run 0 only. -/
def record_run (agg : Aggregate) (i : ℕ) (out : SimOutcome) : Aggregate :=
  { winners := agg.winners ++ [out.winner]
    playoff_appearances :=
      bump_many (bump_many agg.playoff_appearances out.playoff_teams.top_3)
        out.playoff_teams.eliminator
    final_standings := record_standings agg.final_standings out.standings
    sample_match_results :=
      if i = 0 then out.match_results else agg.sample_match_results }

/-- The simulation loop of run_multiple_simulations over the run indices. -/
def run_multiple_aux (a : Analyzer) (gdraws : ℕ → ℕ → Draws) (fdraws : ℕ → Draws) :
    List ℕ → Aggregate → Except String Aggregate
  | [], agg => Except.ok agg
  | i :: rest, agg =>
    match run_simulation a (gdraws i) (fdraws i) with
    | Except.error e => Except.error e
    | Except.ok out => run_multiple_aux a gdraws fdraws rest (record_run agg i out)

/-- TournamentSimulator.run_multiple_simulations: n independent runs, each
consuming its own draws. -/
def run_multiple_simulations (a : Analyzer) (n : ℕ) (gdraws : ℕ → ℕ → Draws)
    (fdraws : ℕ → Draws) : Except String Aggregate :=
  run_multiple_aux a gdraws fdraws (List.range n) empty_aggregate

/-- Python true division by the simulation count: raises ZeroDivisionError
when the count is zero. -/
def qdivN (x : ℚ) (n : ℕ) : Except String ℚ :=
  if n = 0 then Except.error ("ZeroDivisionError") else Except.ok (x / (n : ℚ))

/-- One row of analyze_results: both probability percentages divide by the
simulation count. -/
def analyze_row (n : ℕ) (agg : Aggregate) (team : String) : Except String AnalysisRow :=
  match qdivN ((agg.winners.count team : ℕ) : ℚ) n with
  | Except.error e => Except.error e
  | Except.ok w =>
    match qdivN ((agg.playoff_appearances team : ℕ) : ℚ) n with
    | Except.error e => Except.error e
    | Except.ok p =>
      Except.ok
        { team := team
          win_probability_pct := round1 (w * 100)
          playoff_probability_pct := round1 (p * 100)
          titles_won := agg.winners.count team
          playoff_appearances := agg.playoff_appearances team }

/-- Analysis order: win probability percentage descending. -/
def winProbDesc (r s : AnalysisRow) : Prop :=
  s.win_probability_pct ≤ r.win_probability_pct

instance : DecidableRel winProbDesc :=
  fun r s => inferInstanceAs (Decidable (s.win_probability_pct ≤ r.win_probability_pct))

/-- TournamentSimulator.analyze_results: one row per entry of self.teams,
sorted by win probability descending. -/
def analyze_results (a : Analyzer) (n : ℕ) (agg : Aggregate) :
    Except String (List AnalysisRow) :=
  match (teams a).mapM (analyze_row n agg) with
  | Except.error e => Except.error e
  | Except.ok rows => Except.ok (List.insertionSort winProbDesc rows)

/-- Ratings order: overall rating descending (the nlargest call). -/
def ratingDesc (p q : String × TeamRating) : Prop := q.2.overall ≤ p.2.overall

instance : DecidableRel ratingDesc :=
  fun p q => inferInstanceAs (Decidable (q.2.overall ≤ p.2.overall))

/-- The top-4 teams by overall rating (nlargest(4, Overall_Rating)). -/
def top4_teams (a : Analyzer) : List String :=
  ((List.insertionSort ratingDesc a.team_ratings).take 4).map (fun p => p.1)

/-- Crucial-match order: importance score descending. -/
def importanceDesc (c d : CrucialMatch) : Prop := d.importance_score ≤ c.importance_score

instance : DecidableRel importanceDesc :=
  fun c d => inferInstanceAs (Decidable (d.importance_score ≤ c.importance_score))

instance : IsTotal CrucialMatch importanceDesc :=
  ⟨fun c d => le_total d.importance_score c.importance_score⟩

instance : IsTrans CrucialMatch importanceDesc :=
  ⟨fun _ _ _ h1 h2 => le_trans h2 h1⟩

/-- The filter stage of find_crucial_matches: keep matches between two
top-4 teams, scoring each by 100 minus the probability gap. -/
def crucial_filter (a : Analyzer) (match_results : List SimMatchResult) :
    List CrucialMatch :=
  match_results.filterMap (fun m =>
    if m.team1 ∈ top4_teams a ∧ m.team2 ∈ top4_teams a then
      some
        { match_id := m.match_id
          teams := m.team1 ++ " vs " ++ m.team2
          venue := m.venue
          winner := m.winner
          importance_score := round1 (100 - |m.win_prob_team1 - m.win_prob_team2|)
          prob_difference := round1 (|m.win_prob_team1 - m.win_prob_team2|) }
    else none)

/-- TournamentSimulator.find_crucial_matches: filter to matches between two
top-4 teams, sort by importance score descending and keep the top five. -/
def find_crucial_matches (a : Analyzer) (match_results : List SimMatchResult) :
    List CrucialMatch :=
  (List.insertionSort importanceDesc (crucial_filter a match_results)).take 5

/-- A two-team analyzer with one scheduled fixture, used to exercise the
pipeline on concrete data. -/
def A1 : Analyzer :=
  { schedule := [{ match_id := 1, team1 := "Alpha", team2 := "Beta", venue := "V" }]
    team_ratings := [("Alpha", { batting := 55, bowling := 52, overall := 60 }),
                     ("Beta", { batting := 48, bowling := 50, overall := 60 })]
    venue_stats := [] }

/-- One concrete set of random draws. -/
def d0 : Draws :=
  { toss_winner := TossWinner.TeamA
    toss_coin := TossDecision.Bat
    toss_u := 1 / 2
    h2h_total := 10
    outcome := 1 / 2 }

/-- The concrete win-probability result the pipeline produces on A1. -/
def res1 : WinProbResult :=
  { team1 := "Alpha", team2 := "Beta", venue := "V", win_prob1 := 107 / 2, win_prob2 := 93 / 2 }

/-- The concrete simulated-match result on A1 under the draws d0. -/
def simres1 : SimMatchResult :=
  { match_id := 1
    team1 := "Alpha"
    team2 := "Beta"
    venue := "V"
    winner := "Alpha"
    loser := "Beta"
    win_prob_team1 := 107 / 2
    win_prob_team2 := 93 / 2
    toss_winner := TossWinner.TeamA
    toss_decision := TossDecision.Bat }

/-- The concrete standings one simulated group stage produces on A1. -/
def standings1 : List (String × TeamStats) :=
  [("Alpha", { wins := 1, losses := 0, points := 2 }),
   ("Beta", { wins := 0, losses := 1, points := 0 })]

/-- A three-team analyzer (empty schedule), enough standings rows to reach
the simulated playoff final. -/
def A3 : Analyzer :=
  { schedule := []
    team_ratings := [("T1", { batting := 50, bowling := 50, overall := 50 }),
                     ("T2", { batting := 50, bowling := 50, overall := 50 }),
                     ("T3", { batting := 50, bowling := 50, overall := 50 })]
    venue_stats := [] }

/-- An analyzer whose scheduled fixture involves two teams absent from the
ratings table. -/
def A4 : Analyzer :=
  { schedule := [{ match_id := 1, team1 := "X", team2 := "Y", venue := "V" }]
    team_ratings := [("A", { batting := 50, bowling := 50, overall := 50 })]
    venue_stats := [] }

/-- An analyzer with two teams of exactly equal overall rating. -/
def Aeq : Analyzer :=
  { schedule := [{ match_id := 1, team1 := "P", team2 := "Q", venue := "V" }]
    team_ratings := [("P", { batting := 50, bowling := 50, overall := 55 }),
                     ("Q", { batting := 45, bowling := 52, overall := 55 })]
    venue_stats := [] }

/-- A one-team analyzer. -/
def A1team : Analyzer :=
  { schedule := []
    team_ratings := [("Solo", { batting := 50, bowling := 50, overall := 50 })]
    venue_stats := [] }

/-- A two-team analyzer with given batting/bowling sub-ratings. -/
def A5 : Analyzer :=
  { schedule := [{ match_id := 1, team1 := "A", team2 := "B", venue := "V" }]
    team_ratings := [("A", { batting := 60, bowling := 55, overall := 58 }),
                     ("B", { batting := 50, bowling := 52, overall := 51 })]
    venue_stats := [] }

/-- The same analyzer as A5 except for the batting/bowling sub-ratings. -/
def A5x : Analyzer :=
  { schedule := [{ match_id := 1, team1 := "A", team2 := "B", venue := "V" }]
    team_ratings := [("A", { batting := 10, bowling := 90, overall := 58 }),
                     ("B", { batting := 70, bowling := 20, overall := 51 })]
    venue_stats := [] }

lemma floor_le_roundHalfEven (x : ℚ) : ⌊x⌋ ≤ roundHalfEven x := by
  unfold roundHalfEven
  split_ifs <;> omega

lemma roundHalfEven_le_ceil (x : ℚ) : roundHalfEven x ≤ ⌈x⌉ := by
  unfold roundHalfEven
  split_ifs with h1 h2 h3
  · exact Int.floor_le_ceil x
  · have hx : (⌊x⌋ : ℚ) < x := by linarith
    have := Int.lt_ceil.mpr hx
    omega
  · exact Int.floor_le_ceil x
  · push_neg at h1
    have hx : (⌊x⌋ : ℚ) < x := by linarith
    have := Int.lt_ceil.mpr hx
    omega

lemma roundHalfEven_compl (x : ℚ) (c : ℤ) (hc : c % 2 = 0) :
    roundHalfEven x + roundHalfEven ((c : ℚ) - x) = c := by
  have hfl : (⌊x⌋ : ℚ) ≤ x := Int.floor_le x
  have hfu : x < ⌊x⌋ + 1 := Int.lt_floor_add_one x
  by_cases hint : x = (⌊x⌋ : ℚ)
  · obtain ⟨n, hn⟩ : ∃ n : ℤ, x = (n : ℚ) := ⟨⌊x⌋, hint⟩
    subst hn
    have hfn : ⌊((n : ℤ) : ℚ)⌋ = n := Int.floor_intCast n
    have h2 : ⌊(c : ℚ) - (n : ℚ)⌋ = c - n := by
      rw [show ((c : ℚ) - (n : ℚ)) = ((c - n : ℤ) : ℚ) by push_cast; ring, Int.floor_intCast]
    unfold roundHalfEven
    rw [hfn, h2]
    have c1 : ((n : ℤ) : ℚ) - ((n : ℤ) : ℚ) < 1 / 2 := by norm_num
    have c2 : (c : ℚ) - (n : ℚ) - ((c - n : ℤ) : ℚ) < 1 / 2 := by push_cast; norm_num
    rw [if_pos c1, if_pos c2]
    omega
  · have hlt : (⌊x⌋ : ℚ) < x := lt_of_le_of_ne hfl (fun h => hint h.symm)
    have h2 : ⌊(c : ℚ) - x⌋ = c - ⌊x⌋ - 1 := by
      rw [Int.floor_eq_iff]
      constructor
      · push_cast; linarith
      · push_cast; linarith
    unfold roundHalfEven
    rw [h2]
    have key : (c : ℚ) - x - ((c - ⌊x⌋ - 1 : ℤ) : ℚ) = 1 - (x - ⌊x⌋) := by push_cast; ring
    rw [key]
    split_ifs <;> first | omega | (exfalso; linarith)

lemma round1_sum_compl (p : ℚ) : round1 p + round1 (100 - p) = 100 := by
  unfold round1
  have h : (100 - p) * 10 = ((1000 : ℤ) : ℚ) - p * 10 := by push_cast; ring
  rw [h, div_add_div_same,
    show ((roundHalfEven (p * 10) : ℤ) : ℚ) + ((roundHalfEven (((1000 : ℤ) : ℚ) - p * 10) : ℤ) : ℚ)
      = ((roundHalfEven (p * 10) + roundHalfEven (((1000 : ℤ) : ℚ) - p * 10) : ℤ) : ℚ) by
        push_cast; ring,
    roundHalfEven_compl (p * 10) 1000 (by norm_num)]
  norm_num

lemma round1_bounds (p : ℚ) (h1 : 15 ≤ p) (h2 : p ≤ 85) :
    15 ≤ round1 p ∧ round1 p ≤ 85 := by
  unfold round1
  have hf : (150 : ℤ) ≤ ⌊p * 10⌋ := Int.le_floor.mpr (by push_cast; linarith)
  have hcl : ⌈p * 10⌉ ≤ (850 : ℤ) := Int.ceil_le.mpr (by push_cast; linarith)
  have g1 := floor_le_roundHalfEven (p * 10)
  have g2 := roundHalfEven_le_ceil (p * 10)
  constructor
  · have : (150 : ℚ) ≤ ((roundHalfEven (p * 10) : ℤ) : ℚ) := by exact_mod_cast le_trans hf g1
    linarith
  · have : ((roundHalfEven (p * 10) : ℤ) : ℚ) ≤ (850 : ℚ) := by exact_mod_cast le_trans g2 hcl
    linarith

lemma clampProb_bounds (x : ℚ) : 15 ≤ clampProb x ∧ clampProb x ≤ 85 := by
  unfold clampProb
  constructor
  · exact le_max_left 15 _
  · exact max_le (by norm_num) (min_le_left 85 x)

lemma round_clamp_pack (x : ℚ) :
    round1 (clampProb x) + round1 (100 - clampProb x) = 100 ∧
    15 ≤ round1 (clampProb x) ∧ round1 (clampProb x) ≤ 85 ∧
    15 ≤ round1 (100 - clampProb x) ∧ round1 (100 - clampProb x) ≤ 85 := by
  obtain ⟨hb1, hb2⟩ := clampProb_bounds x
  obtain ⟨p1, p2⟩ := round1_bounds (clampProb x) hb1 hb2
  obtain ⟨q1, q2⟩ := round1_bounds (100 - clampProb x) (by linarith) (by linarith)
  exact ⟨round1_sum_compl (clampProb x), p1, p2, q1, q2⟩

/-- C1: for every match id present in the schedule and every toss winner and
toss decision (and every head-to-head draw), the win_prob pair returned by
calculate_win_probability sums to exactly 100 and both components lie in
[15, 85]: team1's probability is clamped into [15, 85], team2's is its
complement, and both are rounded to one decimal place. -/
theorem winProb_sum_and_bounds (a : Analyzer) (match_id : ℤ) (tw : TossWinner)
    (td : TossDecision) (tm : ℤ) (r : WinProbResult)
    (h : calculate_win_probability a match_id tw td tm = Except.ok r) :
    r.win_prob1 + r.win_prob2 = 100 ∧
    15 ≤ r.win_prob1 ∧ r.win_prob1 ≤ 85 ∧ 15 ≤ r.win_prob2 ∧ r.win_prob2 ≤ 85 := by
  unfold calculate_win_probability at h
  cases hm : get_match_details a match_id with
  | error e => rw [hm] at h; exact absurd h (by simp)
  | ok md =>
    rw [hm] at h
    simp only [Except.ok.injEq] at h
    subst h
    exact round_clamp_pack _

lemma gmd_A1_eval : get_match_details A1 1
    = Except.ok { match_id := 1, team1 := "Alpha", team2 := "Beta", venue := "V" } := rfl

lemma gtr_A1_Alpha : get_team_rating A1 "Alpha"
    = { batting := 55, bowling := 52, overall := 60 } := rfl

lemma gtr_A1_Beta : get_team_rating A1 "Beta"
    = { batting := 48, bowling := 50, overall := 60 } := rfl

lemma gvi_A1 : get_venue_impact A1 "V"
    = { bat_first_win_pct := 50, bowl_first_win_pct := 50, avg_score := 150,
        run_rate := 17 / 2 } := rfl

lemma base_A1_eval : base_prob_team1_pre_toss A1 "Alpha" "Beta" 10 = 50 := by
  unfold base_prob_team1_pre_toss get_head_to_head_record
  rw [gtr_A1_Alpha, gtr_A1_Beta]
  norm_num [truncQ]

lemma round1_2300_43 : round1 (2300 / 43) = 107 / 2 := by
  unfold round1 roundHalfEven
  have hf : ⌊(2300 / 43 : ℚ) * 10⌋ = 534 := by norm_num
  rw [hf]
  norm_num

lemma calc_A1_eval : calculate_win_probability A1 1 TossWinner.TeamA TossDecision.Bat 10
    = Except.ok res1 := by
  unfold calculate_win_probability
  rw [gmd_A1_eval]
  simp only [gvi_A1, base_A1_eval]
  have htoss : apply_toss_advantage
      { bat_first_win_pct := 50, bowl_first_win_pct := 50, avg_score := 150, run_rate := 17 / 2 }
      TossWinner.TeamA TossDecision.Bat 50 (100 - 50) = (115 / 2, 50) := by
    norm_num [apply_toss_advantage]
  rw [htoss]
  have hnorm : normalize_pair (115 / 2, 50) = (2300 / 43, 2000 / 43) := by
    norm_num [normalize_pair]
  rw [hnorm]
  have hclamp : clampProb (2300 / 43, 2000 / 43).1 = 2300 / 43 := by
    unfold clampProb
    rw [min_eq_right (by norm_num), max_eq_right (by norm_num)]
  rw [hclamp]
  have h100 : (100 : ℚ) - 2300 / 43 = 2000 / 43 := by norm_num
  rw [h100]
  have hr2 : round1 (2000 / 43) = 93 / 2 := by
    unfold round1 roundHalfEven
    have hf : ⌊(2000 / 43 : ℚ) * 10⌋ = 465 := by norm_num
    rw [hf]
    norm_num
  rw [round1_2300_43, hr2]
  rfl

/-- Witness for C1 at the concrete analyzer A1. -/
theorem winProb_sum_and_bounds_witness :
    res1.win_prob1 + res1.win_prob2 = 100 ∧
    15 ≤ res1.win_prob1 ∧ res1.win_prob1 ≤ 85 ∧ 15 ≤ res1.win_prob2 ∧ res1.win_prob2 ≤ 85 :=
  winProb_sum_and_bounds A1 1 TossWinner.TeamA TossDecision.Bat 10 res1 calc_A1_eval

lemma get_match_details_error_of_absent (a : Analyzer) (match_id : ℤ)
    (h : ∀ f ∈ a.schedule, f.match_id ≠ match_id) :
    get_match_details a match_id = Except.error (matchNotFoundMsg match_id) := by
  unfold get_match_details
  have hfil : a.schedule.filter (fun f => f.match_id == match_id) = [] := by
    rw [List.filter_eq_nil_iff]
    intro f hf
    simpa using h f hf
  rw [hfil]
  rfl

lemma get_match_details_mem_ok (a : Analyzer) (match_id : ℤ)
    (h : ∃ f ∈ a.schedule, f.match_id = match_id) :
    ∃ g, get_match_details a match_id = Except.ok g := by
  obtain ⟨f, hf, hm⟩ := h
  unfold get_match_details
  cases hh : (a.schedule.filter (fun g => g.match_id == match_id)).head? with
  | none =>
    exfalso
    have hmem : f ∈ a.schedule.filter (fun g => g.match_id == match_id) :=
      List.mem_filter.mpr ⟨hf, by simp [hm]⟩
    rw [List.head?_eq_none_iff.mp hh] at hmem
    exact (List.not_mem_nil f) hmem
  | some g => exact ⟨g, rfl⟩

lemma calculate_error_of_absent (a : Analyzer) (match_id : ℤ) (tw : TossWinner)
    (td : TossDecision) (tm : ℤ) (h : ∀ f ∈ a.schedule, f.match_id ≠ match_id) :
    calculate_win_probability a match_id tw td tm
      = Except.error (matchNotFoundMsg match_id) := by
  unfold calculate_win_probability
  rw [get_match_details_error_of_absent a match_id h]

/-- C2: calculate_win_probability fails exactly when the requested match id
is absent from the schedule: an error is returned if and only if no
scheduled fixture carries the id (otherwise the calculation succeeds). -/
theorem calculate_win_probability_error_iff_absent (a : Analyzer) (match_id : ℤ)
    (tw : TossWinner) (td : TossDecision) (tm : ℤ) :
    (∃ e, calculate_win_probability a match_id tw td tm = Except.error e) ↔
      ∀ f ∈ a.schedule, f.match_id ≠ match_id := by
  constructor
  · rintro ⟨e, he⟩ f hf hmid
    obtain ⟨g, hg⟩ := get_match_details_mem_ok a match_id ⟨f, hf, hmid⟩
    unfold calculate_win_probability at he
    rw [hg] at he
    exact absurd he (by simp)
  · intro h
    exact ⟨matchNotFoundMsg match_id, calculate_error_of_absent a match_id tw td tm h⟩

/-- Witness for C2 at the concrete analyzer A1 and the absent match id 2. -/
theorem calculate_win_probability_error_iff_absent_witness :
    (∃ e, calculate_win_probability A1 2 TossWinner.TeamA TossDecision.Bat 10
        = Except.error e) ↔
      ∀ f ∈ A1.schedule, f.match_id ≠ 2 :=
  calculate_win_probability_error_iff_absent A1 2 TossWinner.TeamA TossDecision.Bat 10

/-- Counterexample for C6: on the concrete analyzer Aeq whose two teams
have exactly equal overall ratings (and neutral venue data), the
head-to-head draw 9 (inside [8, 15]) makes team1's pre-toss, pre-clamp
probability 445/9, not exactly 50, because int(9 * 0.5) truncates to 4 and
the blended head-to-head percentage becomes 400/9. -/
theorem equal_ratings_pre_toss_not_fifty_cex :
    (get_team_rating Aeq "P").overall = (get_team_rating Aeq "Q").overall ∧
    (8 : ℤ) ≤ 9 ∧ (9 : ℤ) ≤ 15 ∧
    base_prob_team1_pre_toss Aeq "P" "Q" 9 ≠ 50 := by
  refine ⟨rfl, by norm_num, by norm_num, ?_⟩
  unfold base_prob_team1_pre_toss get_head_to_head_record
  rw [show get_team_rating Aeq "P" = { batting := 50, bowling := 50, overall := 55 } from rfl,
    show get_team_rating Aeq "Q" = { batting := 45, bowling := 52, overall := 55 } from rfl]
  have hfl : ⌊(9 : ℚ) * (1 / 2 - (55 - 55) / 100)⌋ = 4 := by norm_num
  norm_num [truncQ, hfl]

/-- C6 as amended: with exactly equal overall ratings, team1's probability
after the rating step and the 10% head-to-head blend (before the toss
effect and clamping) equals exactly 50 when the drawn head-to-head total is
even, and 50 - 5/total when it is odd (truncation loses half a win). -/
theorem equal_ratings_pre_toss_value (a : Analyzer) (t1 t2 : String) (tm : ℤ)
    (heq : (get_team_rating a t1).overall = (get_team_rating a t2).overall)
    (h8 : 8 ≤ tm) (h15 : tm ≤ 15) :
    base_prob_team1_pre_toss a t1 t2 tm
      = if tm % 2 = 0 then 50 else 50 - 5 / (tm : ℚ) := by
  unfold base_prob_team1_pre_toss get_head_to_head_record
  rw [heq]
  have hgt : ¬((get_team_rating a t2).overall > (get_team_rating a t2).overall) :=
    lt_irrefl _
  have hpos : (0 : ℤ) < tm := by omega
  simp only [hgt, if_false, sub_self, zero_div, sub_zero, if_pos hpos]
  have htr : truncQ ((tm : ℚ) * (1 / 2)) = ⌊(tm : ℚ) * (1 / 2)⌋ := by
    unfold truncQ
    rw [if_pos (by positivity)]
  rw [htr]
  rcases Int.even_or_odd tm with ⟨k, hk⟩ | ⟨k, hk⟩
  · subst hk
    have hk4 : (4 : ℤ) ≤ k := by omega
    have hfl : ⌊((k + k : ℤ) : ℚ) * (1 / 2)⌋ = k := by
      rw [show (((k + k : ℤ) : ℚ) * (1 / 2)) = ((k : ℤ) : ℚ) by push_cast; ring,
        Int.floor_intCast]
    rw [hfl, if_pos (by omega)]
    have hkq : ((k : ℤ) : ℚ) ≠ 0 := by
      have : (0 : ℚ) < ((k : ℤ) : ℚ) := by exact_mod_cast (by omega : (0 : ℤ) < k)
      linarith
    have hkk : (((k + k : ℤ)) : ℚ) = 2 * ((k : ℤ) : ℚ) := by push_cast; ring
    rw [hkk]
    field_simp
    ring
  · subst hk
    have hk4 : (4 : ℤ) ≤ k := by omega
    have hfl : ⌊((2 * k + 1 : ℤ) : ℚ) * (1 / 2)⌋ = k := by
      rw [show (((2 * k + 1 : ℤ) : ℚ) * (1 / 2)) = ((k : ℤ) : ℚ) + 1 / 2 by push_cast; ring,
        Int.floor_int_add]
      norm_num
    rw [hfl, if_neg (by omega)]
    have hkq : (((2 * k + 1 : ℤ)) : ℚ) ≠ 0 := by
      have : (0 : ℚ) < (((2 * k + 1 : ℤ)) : ℚ) := by exact_mod_cast (by omega : (0 : ℤ) < 2 * k + 1)
      linarith
    rw [show (((2 * k + 1 : ℤ)) : ℚ) = 2 * ((k : ℤ) : ℚ) + 1 by push_cast; ring] at hkq ⊢
    field_simp
    ring

/-- Witness for the amended C6 at the concrete analyzer Aeq with the even
head-to-head draw 10. -/
theorem equal_ratings_pre_toss_value_witness :
    base_prob_team1_pre_toss Aeq "P" "Q" 10
      = if (10 : ℤ) % 2 = 0 then 50 else 50 - 5 / ((10 : ℤ) : ℚ) :=
  equal_ratings_pre_toss_value Aeq "P" "Q" 10 rfl (by norm_num) (by norm_num)

/-- Two ratings-table rows that agree on the team name and the overall
rating (the batting/bowling sub-ratings may differ). -/
def sameOverall (p q : String × TeamRating) : Prop :=
  p.1 = q.1 ∧ p.2.overall = q.2.overall

lemma find_rating_overall_congr :
    ∀ {l l' : List (String × TeamRating)}, List.Forall₂ sameOverall l l' → ∀ t : String,
      (((l'.find? (fun p => p.1 == t)).map Prod.snd).getD
          { batting := 50, bowling := 50, overall := 50 }).overall =
      (((l.find? (fun p => p.1 == t)).map Prod.snd).getD
          { batting := 50, bowling := 50, overall := 50 }).overall := by
  intro l l' h
  induction h with
  | nil => intro t; rfl
  | cons hpq htail ih =>
    intro t
    obtain ⟨hname, hov⟩ := hpq
    rename_i p q tl tl'
    by_cases ht : p.1 = t
    · have hq : q.1 = t := hname ▸ ht
      simp [List.find?_cons, ht, hq, hov]
    · have hq : ¬(q.1 = t) := fun hcon => ht (hname ▸ hcon)
      simp only [List.find?_cons]
      rw [show (p.1 == t) = false by simpa using ht,
        show (q.1 == t) = false by simpa using hq]
      exact ih t

lemma get_team_rating_overall_congr (a a' : Analyzer)
    (h : List.Forall₂ sameOverall a.team_ratings a'.team_ratings) (t : String) :
    (get_team_rating a' t).overall = (get_team_rating a t).overall := by
  unfold get_team_rating
  exact find_rating_overall_congr h t

lemma get_head_to_head_congr (a a' : Analyzer)
    (h : List.Forall₂ sameOverall a.team_ratings a'.team_ratings) (t1 t2 : String) (tm : ℤ) :
    get_head_to_head_record a' t1 t2 tm = get_head_to_head_record a t1 t2 tm := by
  unfold get_head_to_head_record
  rw [get_team_rating_overall_congr a a' h t1, get_team_rating_overall_congr a a' h t2]

lemma base_pre_toss_congr (a a' : Analyzer)
    (h : List.Forall₂ sameOverall a.team_ratings a'.team_ratings) (t1 t2 : String) (tm : ℤ) :
    base_prob_team1_pre_toss a' t1 t2 tm = base_prob_team1_pre_toss a t1 t2 tm := by
  unfold base_prob_team1_pre_toss
  rw [get_team_rating_overall_congr a a' h t1, get_team_rating_overall_congr a a' h t2,
    get_head_to_head_congr a a' h t1 t2 tm]

lemma get_match_details_congr (a a' : Analyzer) (hs : a'.schedule = a.schedule)
    (match_id : ℤ) : get_match_details a' match_id = get_match_details a match_id := by
  unfold get_match_details
  rw [hs]

lemma get_venue_impact_congr (a a' : Analyzer) (hv : a'.venue_stats = a.venue_stats)
    (venue : String) : get_venue_impact a' venue = get_venue_impact a venue := by
  unfold get_venue_impact
  rw [hv]

/-- C5: the returned win_prob pair does not depend on the batting/bowling
sub-ratings: two analyzers with the same schedule, the same venue table and
ratings tables that agree on every team name and overall rating (differing
only in the batting/bowling sub-scores) produce identical win_prob pairs on
every query with the same random draw — the venue-scaled batting-vs-bowling
edge values are computed but never folded into the final probability. -/
theorem winProb_independent_of_subratings (a a' : Analyzer)
    (hs : a'.schedule = a.schedule) (hv : a'.venue_stats = a.venue_stats)
    (hr : List.Forall₂ sameOverall a.team_ratings a'.team_ratings)
    (match_id : ℤ) (tw : TossWinner) (td : TossDecision) (tm : ℤ) :
    (calculate_win_probability a' match_id tw td tm).map
        (fun r => (r.win_prob1, r.win_prob2)) =
    (calculate_win_probability a match_id tw td tm).map
        (fun r => (r.win_prob1, r.win_prob2)) := by
  unfold calculate_win_probability
  rw [get_match_details_congr a a' hs match_id]
  cases get_match_details a match_id with
  | error e => rfl
  | ok md =>
    simp only [Except.map]
    rw [get_venue_impact_congr a a' hv md.venue,
      base_pre_toss_congr a a' hr md.team1 md.team2 tm]

/-- Witness for C5: the concrete analyzers A5 and A5x differ only in
batting/bowling sub-ratings and give the same win_prob pair. -/
theorem winProb_independent_of_subratings_witness :
    (calculate_win_probability A5x 1 TossWinner.TeamA TossDecision.Bat 10).map
        (fun r => (r.win_prob1, r.win_prob2)) =
    (calculate_win_probability A5 1 TossWinner.TeamA TossDecision.Bat 10).map
        (fun r => (r.win_prob1, r.win_prob2)) :=
  winProb_independent_of_subratings A5 A5x rfl rfl
    (List.Forall₂.cons ⟨rfl, rfl⟩ (List.Forall₂.cons ⟨rfl, rfl⟩ List.Forall₂.nil))
    1 TossWinner.TeamA TossDecision.Bat 10

/-- Counterexample for C3: on the one-team analyzer A1team, the Monte Carlo
driver with n = 0 returns empty aggregates, but analyzing them does not
return an all-zero row per team — it fails with ZeroDivisionError, because
analyze_results divides each count by the simulation count 0. -/
theorem analyze_zero_sims_divzero_cex :
    run_multiple_simulations A1team 0 (fun _ _ => d0) (fun _ => d0)
      = Except.ok empty_aggregate ∧
    analyze_results A1team 0 empty_aggregate = Except.error ("ZeroDivisionError") := by
  constructor
  · rfl
  · rfl

/-- C3 as amended: with n = 0 requested simulations the driver returns the
empty aggregate without failing, but analyze_results then performs 0 / 0
and raises ZeroDivisionError whenever at least one team is known to the
rating lookup; an (empty) all-zero table is returned only when the team
list is empty. -/
theorem analyze_zero_sims_behavior (a : Analyzer) (gdraws : ℕ → ℕ → Draws)
    (fdraws : ℕ → Draws) :
    run_multiple_simulations a 0 gdraws fdraws = Except.ok empty_aggregate ∧
    (teams a = [] → analyze_results a 0 empty_aggregate = Except.ok []) ∧
    (teams a ≠ [] →
      analyze_results a 0 empty_aggregate = Except.error ("ZeroDivisionError")) := by
  refine ⟨rfl, ?_, ?_⟩
  · intro h
    unfold analyze_results
    rw [h]
    rfl
  · intro h
    obtain ⟨t, ts, hts⟩ := List.exists_cons_of_ne_nil h
    unfold analyze_results
    rw [hts]
    have hrow : analyze_row 0 empty_aggregate t = Except.error ("ZeroDivisionError") := rfl
    simp only [List.mapM, List.mapM.loop, hrow]
    rfl

/-- Witness for the amended C3 at the concrete analyzer A1team. -/
theorem analyze_zero_sims_behavior_witness :
    run_multiple_simulations A1team 0 (fun _ _ => d0) (fun _ => d0)
      = Except.ok empty_aggregate ∧
    (teams A1team = [] → analyze_results A1team 0 empty_aggregate = Except.ok []) ∧
    (teams A1team ≠ [] →
      analyze_results A1team 0 empty_aggregate = Except.error ("ZeroDivisionError")) :=
  analyze_zero_sims_behavior A1team (fun _ _ => d0) (fun _ => d0)

lemma simulate_single_match_error_of_absent (a : Analyzer) (f : Fixture) (d : Draws)
    (h : ∀ g ∈ a.schedule, g.match_id ≠ f.match_id) :
    simulate_single_match a f d = Except.error (matchNotFoundMsg f.match_id) := by
  unfold simulate_single_match
  have hc := fun tw td => calculate_error_of_absent a f.match_id tw td d.h2h_total h
  simp only [hc]

lemma group_stage_standings_length (a : Analyzer) (draws : ℕ → Draws)
    (st : List (String × TeamStats)) (rs : List SimMatchResult)
    (h : simulate_group_stage a draws = Except.ok (st, rs)) :
    st.length = (teams a).length := by
  unfold simulate_group_stage at h
  cases hr : run_fixtures a draws 0 (fun _ => { wins := 0, losses := 0, points := 0 })
      a.schedule with
  | error e => rw [hr] at h; exact absurd h (by simp)
  | ok p =>
    obtain ⟨stats, mrs⟩ := p
    rw [hr] at h
    simp only [Except.ok.injEq, Prod.mk.injEq] at h
    obtain ⟨h1, h2⟩ := h
    rw [← h1, (List.perm_insertionSort pointsDesc _).length_eq, List.length_map]

lemma simulate_playoffs_final (a : Analyzer) (pt : PlayoffTeams) (d : Draws)
    (t1 t2 t3 : String) (rest : List String) (htop : pt.top_3 = t1 :: t2 :: t3 :: rest) :
    simulate_playoffs a pt d =
      match simulate_single_match a
          { match_id := 999, team1 := t1, team2 := t2, venue := finalVenue } d with
      | Except.error e => Except.error e
      | Except.ok final_result => Except.ok final_result.winner := by
  unfold simulate_playoffs
  rw [htop]

lemma run_simulation_err (a : Analyzer) (gdraws : ℕ → Draws) (fdraw : Draws)
    (hteams : 3 ≤ (teams a).length) (h999 : ∀ f ∈ a.schedule, f.match_id ≠ 999) :
    ∃ e, run_simulation a gdraws fdraw = Except.error e := by
  unfold run_simulation
  cases hg : simulate_group_stage a gdraws with
  | error e => exact ⟨e, rfl⟩
  | ok p =>
    obtain ⟨st, rs⟩ := p
    dsimp only
    have hlen : 3 ≤ st.length := by
      rw [group_stage_standings_length a gdraws st rs hg]
      exact hteams
    have htoplen : (determine_playoffs st).top_3.length = 3 := by
      unfold determine_playoffs
      simp only [List.length_map, List.length_take,
        (List.perm_insertionSort pointsDesc st).length_eq]
      omega
    rcases htop : (determine_playoffs st).top_3 with _ | ⟨t1, _ | ⟨t2, _ | ⟨t3, l3⟩⟩⟩
    · rw [htop] at htoplen; simp at htoplen
    · rw [htop] at htoplen; simp at htoplen
    · rw [htop] at htoplen; simp at htoplen
    rw [simulate_playoffs_final a (determine_playoffs st) fdraw t1 t2 t3 l3 htop,
      simulate_single_match_error_of_absent a
        { match_id := 999, team1 := t1, team2 := t2, venue := finalVenue } fdraw h999]
    exact ⟨matchNotFoundMsg 999, rfl⟩

/-- C8: the claim that the champion of every completed run lies in that
run's top-3 qualifier set never gets to hold on this code: with at least
three rated teams the playoff final is simulated as a dummy fixture with
match id 999, calculate_win_probability looks 999 up in the schedule
(whose ids never include it), and every run aborts with the
match-not-found ValueError, so no analysis output with playoff and win
percentages exists. The repository's own backend test expects
run_simulation to succeed, so this is a code bug, not a spec error. -/
theorem run_simulation_dummy_final_error (a : Analyzer) (gdraws : ℕ → Draws) (fdraw : Draws)
    (hteams : 3 ≤ (teams a).length) (h999 : ∀ f ∈ a.schedule, f.match_id ≠ 999) :
    ∃ e, run_simulation a gdraws fdraw = Except.error e :=
  run_simulation_err a gdraws fdraw hteams h999

/-- Witness for C8 at the concrete three-team analyzer A3. -/
theorem run_simulation_dummy_final_error_witness :
    ∃ e, run_simulation A3 (fun _ => d0) d0 = Except.error e :=
  run_simulation_dummy_final_error A3 (fun _ => d0) d0 (by decide)
    (by intro f hf; exact absurd hf (List.not_mem_nil f))

/-- C7: the claim that n completed simulations yield an analysis table whose
Titles_Won column sums to n never gets to hold on this code: with at least
three rated teams (all scheduled teams rated, as the claim assumes) every
run aborts in the playoff final because the dummy fixture id 999 is looked
up in the schedule, so run_multiple_simulations fails for every n at least
1 and no analysis table is produced. The repository's own backend test
expects these runs to succeed, so this is a code bug, not a spec error. -/
theorem run_multiple_simulations_dummy_final_error (a : Analyzer) (n : ℕ)
    (gdraws : ℕ → ℕ → Draws) (fdraws : ℕ → Draws)
    (hteams : 3 ≤ (teams a).length)
    (_hrated : ∀ f ∈ a.schedule, f.team1 ∈ teams a ∧ f.team2 ∈ teams a)
    (h999 : ∀ f ∈ a.schedule, f.match_id ≠ 999) (hn : 1 ≤ n) :
    ∃ e, run_multiple_simulations a n gdraws fdraws = Except.error e := by
  obtain ⟨m, rfl⟩ : ∃ m, n = m + 1 := ⟨n - 1, by omega⟩
  unfold run_multiple_simulations
  rw [List.range_succ_eq_map]
  obtain ⟨e, he⟩ := run_simulation_err a (gdraws 0) (fdraws 0) hteams h999
  refine ⟨e, ?_⟩
  unfold run_multiple_aux
  rw [he]

/-- Witness for C7 at the concrete three-team analyzer A3 with n = 1. -/
theorem run_multiple_simulations_dummy_final_error_witness :
    ∃ e, run_multiple_simulations A3 1 (fun _ _ => d0) (fun _ => d0) = Except.error e :=
  run_multiple_simulations_dummy_final_error A3 1 (fun _ _ => d0) (fun _ => d0)
    (by decide)
    (by intro f hf; exact absurd hf (List.not_mem_nil f))
    (by intro f hf; exact absurd hf (List.not_mem_nil f))
    (by decide)

lemma add_win_wins (s : String → TeamStats) (w t : String) :
    (add_win s w t).wins = if t = w then (s t).wins + 1 else (s t).wins := by
  unfold add_win
  split_ifs <;> rfl

lemma add_win_losses (s : String → TeamStats) (w t : String) :
    (add_win s w t).losses = (s t).losses := by
  unfold add_win
  split_ifs <;> rfl

lemma add_win_points (s : String → TeamStats) (w t : String) :
    (add_win s w t).points = if t = w then (s t).points + 2 else (s t).points := by
  unfold add_win
  split_ifs <;> rfl

lemma add_loss_wins (s : String → TeamStats) (l t : String) :
    (add_loss s l t).wins = (s t).wins := by
  unfold add_loss
  split_ifs <;> rfl

lemma add_loss_losses (s : String → TeamStats) (l t : String) :
    (add_loss s l t).losses = if t = l then (s t).losses + 1 else (s t).losses := by
  unfold add_loss
  split_ifs <;> rfl

lemma add_loss_points (s : String → TeamStats) (l t : String) :
    (add_loss s l t).points = (s t).points := by
  unfold add_loss
  split_ifs <;> rfl

lemma update_wins (s : String → TeamStats) (w l t : String) :
    (update_stats s w l t).wins = if t = w then (s t).wins + 1 else (s t).wins := by
  unfold update_stats
  rw [add_loss_wins, add_win_wins]

lemma update_losses (s : String → TeamStats) (w l t : String) :
    (update_stats s w l t).losses = if t = l then (s t).losses + 1 else (s t).losses := by
  unfold update_stats
  rw [add_loss_losses, add_win_losses]

lemma update_points (s : String → TeamStats) (w l t : String) :
    (update_stats s w l t).points = if t = w then (s t).points + 2 else (s t).points := by
  unfold update_stats
  rw [add_loss_points, add_win_points]

lemma update_points_inv (s : String → TeamStats) (w l : String)
    (hp : ∀ t, (s t).points = 2 * (s t).wins) (t : String) :
    (update_stats s w l t).points = 2 * (update_stats s w l t).wins := by
  have hpt := hp t
  rw [update_points, update_wins]
  split_ifs <;> omega

lemma sum_map_bump (l : List String) (hnd : l.Nodup) (g h : String → ℕ) (w : String)
    (hw : w ∈ l) (hbump : ∀ t, h t = if t = w then g t + 1 else g t) :
    (l.map h).sum = (l.map g).sum + 1 := by
  induction l with
  | nil => simp at hw
  | cons x xs ih =>
    rw [List.map_cons, List.map_cons, List.sum_cons, List.sum_cons]
    rcases List.mem_cons.mp hw with rfl | hwxs
    · have hx : w ∉ xs := (List.nodup_cons.mp hnd).1
      rw [hbump w, if_pos rfl]
      have hmap : xs.map h = xs.map g :=
        List.map_congr_left (fun t ht => by
          rw [hbump t, if_neg (fun hc => hx (by rw [← hc]; exact ht))])
      rw [hmap]
      omega
    · have hxw : ¬(x = w) := fun hc => (List.nodup_cons.mp hnd).1 (by rw [hc]; exact hwxs)
      rw [hbump x, if_neg hxw, ih (List.nodup_cons.mp hnd).2 hwxs]
      omega

lemma sum_wins_update (l : List String) (hnd : l.Nodup) (s : String → TeamStats)
    (w lo : String) (hw : w ∈ l) :
    (l.map (fun t => (update_stats s w lo t).wins)).sum
      = (l.map (fun t => (s t).wins)).sum + 1 :=
  sum_map_bump l hnd (fun t => (s t).wins) (fun t => (update_stats s w lo t).wins) w hw
    (fun t => update_wins s w lo t)

lemma sum_losses_update (l : List String) (hnd : l.Nodup) (s : String → TeamStats)
    (w lo : String) (hlo : lo ∈ l) :
    (l.map (fun t => (update_stats s w lo t).losses)).sum
      = (l.map (fun t => (s t).losses)).sum + 1 :=
  sum_map_bump l hnd (fun t => (s t).losses) (fun t => (update_stats s w lo t).losses) lo hlo
    (fun t => update_losses s w lo t)

lemma simulate_single_match_fields (a : Analyzer) (f : Fixture) (d : Draws)
    (r : SimMatchResult) (h : simulate_single_match a f d = Except.ok r) :
    r.match_id = f.match_id ∧ r.team1 = f.team1 ∧ r.team2 = f.team2 ∧
    ((r.winner = f.team1 ∧ r.loser = f.team2) ∨ (r.winner = f.team2 ∧ r.loser = f.team1)) := by
  unfold simulate_single_match at h
  cases hc : calculate_win_probability a f.match_id d.toss_winner
      (simulate_optimal_toss_decision a f.venue d.toss_coin d.toss_u) d.h2h_total with
  | error e =>
    simp only [hc] at h
    exact absurd h (by simp)
  | ok w =>
    simp only [hc] at h
    by_cases hout : d.outcome < w.win_prob1 / 100
    · rw [if_pos hout] at h
      simp only [Except.ok.injEq] at h
      subst h
      exact ⟨rfl, rfl, rfl, Or.inl ⟨rfl, rfl⟩⟩
    · rw [if_neg hout] at h
      simp only [Except.ok.injEq] at h
      subst h
      exact ⟨rfl, rfl, rfl, Or.inr ⟨rfl, rfl⟩⟩

lemma run_fixtures_spec (a : Analyzer) (draws : ℕ → Draws) :
    ∀ (fs : List Fixture) (i : ℕ) (stats st : String → TeamStats)
      (rs : List SimMatchResult),
      run_fixtures a draws i stats fs = Except.ok (st, rs) →
      (rs.map (fun r => (r.match_id, r.team1, r.team2))
          = fs.map (fun f => (f.match_id, f.team1, f.team2))) ∧
      (∀ r ∈ rs,
        (r.winner = r.team1 ∧ r.loser = r.team2) ∨ (r.winner = r.team2 ∧ r.loser = r.team1)) ∧
      ((∀ t, (stats t).points = 2 * (stats t).wins) →
        ∀ t, (st t).points = 2 * (st t).wins) ∧
      ((teams a).Nodup →
        ((teams a).map (fun t => (st t).wins)).sum
            = ((teams a).map (fun t => (stats t).wins)).sum + fs.length ∧
        ((teams a).map (fun t => (st t).losses)).sum
            = ((teams a).map (fun t => (stats t).losses)).sum + fs.length) := by
  intro fs
  induction fs with
  | nil =>
    intro i stats st rs h
    unfold run_fixtures at h
    simp only [Except.ok.injEq, Prod.mk.injEq] at h
    obtain ⟨h1, h2⟩ := h
    subst h1
    subst h2
    exact ⟨by simp, by simp, fun hp => hp, fun _ => ⟨by simp, by simp⟩⟩
  | cons f fl ih =>
    intro i stats st rs h
    unfold run_fixtures at h
    cases hs : simulate_single_match a f (draws i) with
    | error e =>
      simp only [hs] at h
      exact absurd h (by simp)
    | ok r =>
      simp only [hs] at h
      by_cases hmem : r.winner ∈ teams a ∧ r.loser ∈ teams a
      · rw [if_pos hmem] at h
        cases hrec : run_fixtures a draws (i + 1) (update_stats stats r.winner r.loser) fl with
        | error e =>
          simp only [hrec] at h
          exact absurd h (by simp)
        | ok q =>
          obtain ⟨st', rs'⟩ := q
          rw [hrec] at h
          simp only [Except.ok.injEq, Prod.mk.injEq] at h
          obtain ⟨h1, h2⟩ := h
          subst h1
          subst h2
          obtain ⟨iha, ihb, ihc, ihd⟩ :=
            ih (i + 1) (update_stats stats r.winner r.loser) st' rs' hrec
          obtain ⟨hf1, hf2, hf3, hf4⟩ := simulate_single_match_fields a f (draws i) r hs
          refine ⟨?_, ?_, ?_, ?_⟩
          · rw [List.map_cons, List.map_cons, hf1, hf2, hf3, iha]
          · intro x hx
            rcases List.mem_cons.mp hx with rfl | hxs
            · rw [← hf2, ← hf3] at hf4
              exact hf4
            · exact ihb x hxs
          · intro hp
            exact ihc (update_points_inv stats r.winner r.loser hp)
          · intro hnd
            obtain ⟨hw, hl⟩ := ihd hnd
            constructor
            · rw [hw, sum_wins_update (teams a) hnd stats r.winner r.loser hmem.1,
                List.length_cons]
              omega
            · rw [hl, sum_losses_update (teams a) hnd stats r.winner r.loser hmem.2,
                List.length_cons]
              omega
      · rw [if_neg hmem] at h
        exact absurd h (by simp)

/-- C9: one simulated group stage processes every scheduled fixture exactly
once in schedule order (the result list mirrors the schedule's match ids
and team slots), each fixture yields exactly one winner and one loser drawn
from its two teams, every standings row satisfies points = 2 * wins, and
the wins and the losses summed over the standings each equal the number of
scheduled fixtures. -/
theorem group_stage_invariants (a : Analyzer) (draws : ℕ → Draws)
    (standings : List (String × TeamStats)) (rs : List SimMatchResult)
    (hnd : (teams a).Nodup)
    (h : simulate_group_stage a draws = Except.ok (standings, rs)) :
    rs.map (fun r => (r.match_id, r.team1, r.team2))
        = a.schedule.map (fun f => (f.match_id, f.team1, f.team2)) ∧
    (∀ r ∈ rs,
      (r.winner = r.team1 ∧ r.loser = r.team2) ∨ (r.winner = r.team2 ∧ r.loser = r.team1)) ∧
    (∀ p ∈ standings, p.2.points = 2 * p.2.wins) ∧
    (standings.map (fun p => p.2.wins)).sum = a.schedule.length ∧
    (standings.map (fun p => p.2.losses)).sum = a.schedule.length := by
  unfold simulate_group_stage at h
  cases hr : run_fixtures a draws 0 (fun _ => { wins := 0, losses := 0, points := 0 })
      a.schedule with
  | error e => rw [hr] at h; exact absurd h (by simp)
  | ok p =>
    obtain ⟨stats, mrs⟩ := p
    rw [hr] at h
    simp only [Except.ok.injEq, Prod.mk.injEq] at h
    obtain ⟨h1, h2⟩ := h
    subst h2
    obtain ⟨sa, sb, sc, sd⟩ := run_fixtures_spec a draws a.schedule 0
      (fun _ => { wins := 0, losses := 0, points := 0 }) stats mrs hr
    have hperm : standings.Perm ((teams a).map (fun t => (t, stats t))) := by
      rw [← h1]
      exact List.perm_insertionSort pointsDesc _
    have hpoints : ∀ p ∈ standings, p.2.points = 2 * p.2.wins := by
      intro p hp
      have hp' : p ∈ (teams a).map (fun t => (t, stats t)) := hperm.mem_iff.mp hp
      obtain ⟨t, _, ht⟩ := List.mem_map.mp hp'
      have := sc (fun _ => rfl) t
      rw [← ht]
      exact this
    obtain ⟨sw, sl⟩ := sd hnd
    have hzero_w : ((teams a).map (fun t =>
        ((fun _ => ({ wins := 0, losses := 0, points := 0 } : TeamStats)) t).wins)).sum = 0 := by
      simp
    have hzero_l : ((teams a).map (fun t =>
        ((fun _ => ({ wins := 0, losses := 0, points := 0 } : TeamStats)) t).losses)).sum = 0 := by
      simp
    rw [hzero_w] at sw
    rw [hzero_l] at sl
    refine ⟨sa, sb, hpoints, ?_, ?_⟩
    · rw [(hperm.map (fun p => p.2.wins)).sum_eq]
      rw [List.map_map]
      simpa using sw
    · rw [(hperm.map (fun p => p.2.losses)).sum_eq]
      rw [List.map_map]
      simpa using sl

lemma sim_single_A1_eval : simulate_single_match A1
    { match_id := 1, team1 := "Alpha", team2 := "Beta", venue := "V" } d0
      = Except.ok simres1 := by
  have hv : A1.venue_stats = [] := rfl
  unfold simulate_single_match
  simp only [d0, hv, simulate_optimal_toss_decision, List.find?_nil, calc_A1_eval]
  have hlt : (1 / 2 : ℚ) < res1.win_prob1 / 100 := by
    norm_num [res1]
  rw [if_pos hlt]
  norm_num [simres1, res1]

lemma run_fixtures_A1_eval : run_fixtures A1 (fun _ => d0) 0
    (fun _ => { wins := 0, losses := 0, points := 0 }) A1.schedule
      = Except.ok
          (update_stats (fun _ => { wins := 0, losses := 0, points := 0 }) "Alpha" "Beta",
           [simres1]) := by
  have hsched : A1.schedule
      = [{ match_id := 1, team1 := "Alpha", team2 := "Beta", venue := "V" }] := rfl
  rw [hsched]
  unfold run_fixtures
  rw [sim_single_A1_eval]
  dsimp only
  rw [if_pos (by decide : simres1.winner ∈ teams A1 ∧ simres1.loser ∈ teams A1)]
  rfl

lemma group_stage_A1_eval : simulate_group_stage A1 (fun _ => d0)
    = Except.ok (standings1, [simres1]) := by
  unfold simulate_group_stage
  rw [run_fixtures_A1_eval]
  rfl

/-- Witness for C9 at the concrete analyzer A1 with its one fixture. -/
theorem group_stage_invariants_witness :
    ([simres1].map (fun r => (r.match_id, r.team1, r.team2))
        = A1.schedule.map (fun f => (f.match_id, f.team1, f.team2))) ∧
    (∀ r ∈ [simres1],
      (r.winner = r.team1 ∧ r.loser = r.team2) ∨ (r.winner = r.team2 ∧ r.loser = r.team1)) ∧
    (∀ p ∈ standings1, p.2.points = 2 * p.2.wins) ∧
    (standings1.map (fun p => p.2.wins)).sum = A1.schedule.length ∧
    (standings1.map (fun p => p.2.losses)).sum = A1.schedule.length :=
  group_stage_invariants A1 (fun _ => d0) standings1 [simres1] (by decide)
    group_stage_A1_eval

lemma get_team_rating_default (a : Analyzer) (t : String) (ht : t ∉ teams a) :
    get_team_rating a t = { batting := 50, bowling := 50, overall := 50 } := by
  unfold get_team_rating
  have : a.team_ratings.find? (fun p => p.1 == t) = none := by
    rw [List.find?_eq_none]
    intro p hp hc
    exact ht (List.mem_map.mpr ⟨p, hp, by simpa using hc⟩)
  rw [this]
  rfl

lemma get_venue_impact_default (a : Analyzer) (v : String) (hv : v ∉ venue_names a) :
    get_venue_impact a v
      = { bat_first_win_pct := 50, bowl_first_win_pct := 50, avg_score := 150,
          run_rate := 17 / 2 } := by
  unfold get_venue_impact
  have : a.venue_stats.find? (fun p => p.1 == v) = none := by
    rw [List.find?_eq_none]
    intro p hp hc
    exact hv (List.mem_map.mpr ⟨p, hp, by simpa using hc⟩)
  rw [this]
  rfl

lemma calculate_isOk_of_present (a : Analyzer) (match_id : ℤ) (tw : TossWinner)
    (td : TossDecision) (tm : ℤ) (h : ∃ f ∈ a.schedule, f.match_id = match_id) :
    (calculate_win_probability a match_id tw td tm).isOk = true := by
  obtain ⟨g, hg⟩ := get_match_details_mem_ok a match_id h
  unfold calculate_win_probability
  rw [hg]
  rfl

lemma simulate_single_match_ok_of_mem (a : Analyzer) (f : Fixture) (d : Draws)
    (hf : f ∈ a.schedule) : ∃ r, simulate_single_match a f d = Except.ok r := by
  obtain ⟨g, hg⟩ := get_match_details_mem_ok a f.match_id ⟨f, hf, rfl⟩
  have hcalc : ∃ w, calculate_win_probability a f.match_id d.toss_winner
      (simulate_optimal_toss_decision a f.venue d.toss_coin d.toss_u) d.h2h_total
        = Except.ok w := by
    unfold calculate_win_probability
    rw [hg]
    exact ⟨_, rfl⟩
  obtain ⟨w, hw⟩ := hcalc
  unfold simulate_single_match
  simp only [hw]
  exact ⟨_, rfl⟩

lemma run_fixtures_ok_iff (a : Analyzer) (draws : ℕ → Draws) :
    ∀ (fs : List Fixture) (i : ℕ) (stats : String → TeamStats),
      (∀ f ∈ fs, f ∈ a.schedule) →
      ((run_fixtures a draws i stats fs).isOk = true ↔
        ∀ f ∈ fs, f.team1 ∈ teams a ∧ f.team2 ∈ teams a) := by
  intro fs
  induction fs with
  | nil =>
    intro i stats _
    unfold run_fixtures
    exact ⟨fun _ f hf => absurd hf (List.not_mem_nil f), fun _ => rfl⟩
  | cons f fl ih =>
    intro i stats hsub
    have hf : f ∈ a.schedule := hsub f (List.mem_cons_self f fl)
    obtain ⟨r, hr⟩ := simulate_single_match_ok_of_mem a f (draws i) hf
    obtain ⟨hf1, hf2, hf3, hf4⟩ := simulate_single_match_fields a f (draws i) r hr
    have hwl : (r.winner ∈ teams a ∧ r.loser ∈ teams a) ↔
        (f.team1 ∈ teams a ∧ f.team2 ∈ teams a) := by
      rcases hf4 with ⟨hw, hl⟩ | ⟨hw, hl⟩ <;> rw [hw, hl]
      exact and_comm
    unfold run_fixtures
    rw [hr]
    dsimp only
    by_cases hmem : r.winner ∈ teams a ∧ r.loser ∈ teams a
    · rw [if_pos hmem]
      have ihiff := ih (i + 1) (update_stats stats r.winner r.loser)
        (fun g hg => hsub g (List.mem_cons_of_mem f hg))
      constructor
      · intro hok
        intro g hg
        rcases List.mem_cons.mp hg with rfl | hgl
        · exact hwl.mp hmem
        · apply ihiff.mp ?_ g hgl
          cases hrec : run_fixtures a draws (i + 1) (update_stats stats r.winner r.loser) fl with
          | error e =>
            rw [hrec] at hok
            simp [Except.isOk, Except.toBool] at hok
          | ok q => rfl
      · intro hall
        have hok2 := ihiff.mpr (fun g hg => hall g (List.mem_cons_of_mem f hg))
        cases hrec : run_fixtures a draws (i + 1) (update_stats stats r.winner r.loser) fl with
        | error e =>
          rw [hrec] at hok2
          simp [Except.isOk, Except.toBool] at hok2
        | ok q => rfl
    · rw [if_neg hmem]
      constructor
      · intro hok
        simp [Except.isOk, Except.toBool] at hok
      · intro hall
        exact absurd (hwl.mpr (hall f (List.mem_cons_self f fl))) hmem

lemma simulate_group_stage_ok_iff (a : Analyzer) (draws : ℕ → Draws) :
    (simulate_group_stage a draws).isOk = true ↔
      ∀ f ∈ a.schedule, f.team1 ∈ teams a ∧ f.team2 ∈ teams a := by
  have hbase := run_fixtures_ok_iff a draws a.schedule 0
    (fun _ => { wins := 0, losses := 0, points := 0 }) (fun f hf => hf)
  unfold simulate_group_stage
  cases hr : run_fixtures a draws 0 (fun _ => { wins := 0, losses := 0, points := 0 })
      a.schedule with
  | error e =>
    rw [hr] at hbase
    simpa using hbase
  | ok p =>
    obtain ⟨stats, mrs⟩ := p
    rw [hr] at hbase
    simpa using hbase

lemma group_stage_A4_err : (simulate_group_stage A4 (fun _ => d0)).isOk = false := by
  have h := simulate_group_stage_ok_iff A4 (fun _ => d0)
  have hnot : ¬(∀ f ∈ A4.schedule, f.team1 ∈ teams A4 ∧ f.team2 ∈ teams A4) := by decide
  cases hb : (simulate_group_stage A4 (fun _ => d0)).isOk with
  | false => rfl
  | true => exact absurd (h.mp hb) hnot

/-- Counterexample for C4: on the analyzer A4, whose single scheduled
fixture is between two teams absent from the ratings table, the group-stage
simulation does not complete with neutral defaults — it fails (the
team_stats dictionary is keyed by the rated teams, so updating the winner
raises KeyError). -/
theorem group_stage_missing_rating_cex :
    ("X" ∉ teams A4 ∧
      ({ match_id := 1, team1 := "X", team2 := "Y", venue := "V" } : Fixture) ∈ A4.schedule) ∧
    (simulate_group_stage A4 (fun _ => d0)).isOk = false :=
  ⟨⟨by decide, by decide⟩, group_stage_A4_err⟩

/-- C4 as amended: missing reference data is never fatal to the
win-probability calculation or to a single-match simulation — an unrated
team resolves to the neutral 50/50/50 rating, an unknown venue to the
neutral 50/50/150/8.5 profile, and both operations succeed for any
scheduled fixture; but the group-stage simulation completes if and only if
every scheduled fixture's two teams are in the rated-team list (a fixture
with an unrated team raises KeyError when its standings are updated). -/
theorem missing_data_fallback_amended (a : Analyzer) (t v : String) (match_id : ℤ)
    (tw : TossWinner) (td : TossDecision) (tm : ℤ) (f : Fixture) (d : Draws)
    (draws : ℕ → Draws) (ht : t ∉ teams a) (hv : v ∉ venue_names a)
    (hmid : ∃ g ∈ a.schedule, g.match_id = match_id) (hf : f ∈ a.schedule) :
    get_team_rating a t = { batting := 50, bowling := 50, overall := 50 } ∧
    get_venue_impact a v
      = { bat_first_win_pct := 50, bowl_first_win_pct := 50, avg_score := 150,
          run_rate := 17 / 2 } ∧
    (calculate_win_probability a match_id tw td tm).isOk = true ∧
    (simulate_single_match a f d).isOk = true ∧
    ((simulate_group_stage a draws).isOk = true ↔
      ∀ g ∈ a.schedule, g.team1 ∈ teams a ∧ g.team2 ∈ teams a) := by
  refine ⟨get_team_rating_default a t ht, get_venue_impact_default a v hv,
    calculate_isOk_of_present a match_id tw td tm hmid, ?_,
    simulate_group_stage_ok_iff a draws⟩
  obtain ⟨r, hr⟩ := simulate_single_match_ok_of_mem a f d hf
  rw [hr]
  rfl

/-- Witness for the amended C4 at the concrete analyzer A4 (team X and
venue W have no reference data; fixture 1 is scheduled). -/
theorem missing_data_fallback_amended_witness :
    get_team_rating A4 "X" = { batting := 50, bowling := 50, overall := 50 } ∧
    get_venue_impact A4 "W"
      = { bat_first_win_pct := 50, bowl_first_win_pct := 50, avg_score := 150,
          run_rate := 17 / 2 } ∧
    (calculate_win_probability A4 1 TossWinner.TeamA TossDecision.Bat 10).isOk = true ∧
    (simulate_single_match A4
      { match_id := 1, team1 := "X", team2 := "Y", venue := "V" } d0).isOk = true ∧
    ((simulate_group_stage A4 (fun _ => d0)).isOk = true ↔
      ∀ g ∈ A4.schedule, g.team1 ∈ teams A4 ∧ g.team2 ∈ teams A4) :=
  missing_data_fallback_amended A4 "X" "W" 1 TossWinner.TeamA TossDecision.Bat 10
    { match_id := 1, team1 := "X", team2 := "Y", venue := "V" } d0 (fun _ => d0)
    (by decide) (by decide)
    ⟨{ match_id := 1, team1 := "X", team2 := "Y", venue := "V" }, by decide, rfl⟩
    (by decide)

/-- C10: find_crucial_matches returns at most five entries; every returned
entry comes from a sample match whose two teams are both among the top-4
teams by overall rating, carries that match's id and is scored by
100 minus the absolute win-probability gap (rounded to one decimal); the
output is sorted by that score in descending order; and a sample with no
fixture between two top-4 teams yields the empty list, not an error. -/
theorem find_crucial_matches_spec (a : Analyzer) (mrs : List SimMatchResult) :
    (find_crucial_matches a mrs).length ≤ 5 ∧
    (∀ c ∈ find_crucial_matches a mrs, ∃ m ∈ mrs,
        m.team1 ∈ top4_teams a ∧ m.team2 ∈ top4_teams a ∧
        c.match_id = m.match_id ∧
        c.importance_score = round1 (100 - |m.win_prob_team1 - m.win_prob_team2|)) ∧
    List.Sorted importanceDesc (find_crucial_matches a mrs) ∧
    ((∀ m ∈ mrs, ¬(m.team1 ∈ top4_teams a ∧ m.team2 ∈ top4_teams a)) →
      find_crucial_matches a mrs = []) := by
  refine ⟨List.length_take_le 5 _, ?_, ?_, ?_⟩
  · intro c hc
    unfold find_crucial_matches at hc
    have hc2 : c ∈ crucial_filter a mrs :=
      (List.perm_insertionSort importanceDesc _).mem_iff.mp (List.mem_of_mem_take hc)
    unfold crucial_filter at hc2
    obtain ⟨m, hm, hfm⟩ := List.mem_filterMap.mp hc2
    by_cases hcond : m.team1 ∈ top4_teams a ∧ m.team2 ∈ top4_teams a
    · rw [if_pos hcond] at hfm
      simp only [Option.some.injEq] at hfm
      subst hfm
      exact ⟨m, hm, hcond.1, hcond.2, rfl, rfl⟩
    · rw [if_neg hcond] at hfm
      exact absurd hfm (by simp)
  · exact List.Pairwise.sublist (List.take_sublist 5 _)
      (List.sorted_insertionSort importanceDesc (crucial_filter a mrs))
  · intro h
    unfold find_crucial_matches crucial_filter
    rw [List.filterMap_eq_nil_iff.mpr (fun m hm => if_neg (h m hm))]
    rfl

/-- Witness for C10 at the concrete analyzer A1 and its sample run. -/
theorem find_crucial_matches_spec_witness :
    (find_crucial_matches A1 [simres1]).length ≤ 5 ∧
    (∀ c ∈ find_crucial_matches A1 [simres1], ∃ m ∈ [simres1],
        m.team1 ∈ top4_teams A1 ∧ m.team2 ∈ top4_teams A1 ∧
        c.match_id = m.match_id ∧
        c.importance_score = round1 (100 - |m.win_prob_team1 - m.win_prob_team2|)) ∧
    List.Sorted importanceDesc (find_crucial_matches A1 [simres1]) ∧
    ((∀ m ∈ [simres1], ¬(m.team1 ∈ top4_teams A1 ∧ m.team2 ∈ top4_teams A1)) →
      find_crucial_matches A1 [simres1] = []) :=
  find_crucial_matches_spec A1 [simres1]
